import Mathlib

/-!
Verification of the ownership-scoped CRUD and inquiry-routing contract of the
real-estate-armenia repository.

The two request handlers `src/pages/api/properties.ts` and
`src/pages/api/inquiries.ts` are shallowly embedded as pure Lean functions
over an explicit in-memory store. JavaScript truthiness of optional strings is
modelled by `jsTruthy`; JSON request bodies are records of `Option` fields
(`none` = the field is absent / `undefined`). The Supabase query builder is
modelled by list operations: `.eq` by `filter`, `.order(created_at, desc)` by
insertion sort on the timestamp, `.limit` by `take`, `.single()` by `singleQ`
(which, as in supabase-js, yields an error object when the filtered result
does not have exactly one row), and `.insert`/`.update`/`.delete` by the
corresponding list edits. Rows the store generates (fresh id, creation
timestamp) are passed in as parameters. Store-level failures other than the
`.single()` zero-row case are not modelled: the store itself is the external
collaborator and its internal errors are out of scope.
-/

/-- A row of the `properties` table. -/
structure PropertyRow where
  id : String
  owner : String
  title : String
  city : String
  price : Int
  image_url : Option String
  created_at : Nat
deriving DecidableEq, Repr

/-- A row of the `inquiries` table. -/
structure InquiryRow where
  id : String
  property : String
  sender : String
  message : String
  created_at : Nat
deriving DecidableEq, Repr

/-- The record store: the two tables the handlers touch. -/
structure Store where
  properties : List PropertyRow
  inquiries : List InquiryRow
deriving DecidableEq, Repr

/-- JavaScript truthiness of an optional string value: `undefined` and the
empty string are falsy, every other string is truthy. -/
def jsTruthy : Option String → Bool
  | none => false
  | some s => s ≠ ""

/-- The `image_url || null` coercion on the POST body: a falsy value becomes
`null` (here `none`). -/
def jsOrNull : Option String → Option String
  | none => none
  | some s => if s = "" then none else some s

/-- The error message supabase-js attaches to a `.single()` call whose result
set does not have exactly one row. -/
def singleErrMsg : String := "JSON object requested, multiple (or no) rows returned"

/-- Model of the supabase `.single()` modifier: the pair (data, error). On
exactly one row it returns that row with no error; on zero or several rows it
returns no data together with a PGRST116 error object. -/
def singleQ {α : Type} : List α → Option α × Option String
  | [x] => (some x, none)
  | _ => (none, some singleErrMsg)

/-- Descending creation-time order on property rows. -/
def propGE (a b : PropertyRow) : Prop := b.created_at ≤ a.created_at

instance : DecidableRel propGE := fun _ _ => Nat.decLe _ _

instance : IsTotal PropertyRow propGE := ⟨fun a b => Nat.le_total b.created_at a.created_at⟩

instance : IsTrans PropertyRow propGE := ⟨fun _ _ _ h1 h2 => Nat.le_trans h2 h1⟩

/-- Descending creation-time order on inquiry rows. -/
def inqGE (a b : InquiryRow) : Prop := b.created_at ≤ a.created_at

instance : DecidableRel inqGE := fun _ _ => Nat.decLe _ _

instance : IsTotal InquiryRow inqGE := ⟨fun a b => Nat.le_total b.created_at a.created_at⟩

instance : IsTrans InquiryRow inqGE := ⟨fun _ _ _ h1 h2 => Nat.le_trans h2 h1⟩

/-- Model of `.order(created_at, { ascending: false })` on property rows. -/
def sortPropDesc (l : List PropertyRow) : List PropertyRow := l.insertionSort propGE

/-- Model of `.order(created_at, { ascending: false })` on inquiry rows. -/
def sortInqDesc (l : List InquiryRow) : List InquiryRow := l.insertionSort inqGE

/-- The query string of `/api/properties`: optional `id` and `ownerId`. -/
structure PropQuery where
  id : Option String
  ownerId : Option String
deriving DecidableEq, Repr

/-- The JSON body sent to `/api/properties` (POST and PUT). The handler
destructures only `title, city, price, image_url`; an `owner` field a caller
may supply is carried here to show it is never read. -/
structure PropBody where
  title : Option String
  city : Option String
  price : Option Int
  image_url : Option String
  owner : Option String
deriving DecidableEq, Repr

/-- Payload of a successful `/api/properties` response: a lone object for
`GET ?id=`, an array for the other reads and writes, `{success:true}` for
DELETE. -/
inductive PropPayload where
  | one (r : PropertyRow)
  | many (rs : List PropertyRow)
  | success
  | nullData
deriving DecidableEq, Repr

/-- An HTTP response of the properties handler: status plus payload, or
status plus error message. -/
inductive PropResp where
  | ok (status : Nat) (payload : PropPayload)
  | err (status : Nat) (msg : String)
deriving DecidableEq, Repr

/-- Status code of a properties response. -/
def PropResp.status : PropResp → Nat
  | .ok s _ => s
  | .err s _ => s

/-- GET branch of `src/pages/api/properties.ts` (lines 35-87): single fetch
by id, owner-filtered list, or the unfiltered list capped at 20 rows. Reads
are public: the resolved user id is not an input at all, mirroring that the
source GET branch never mentions `userId`. -/
def propertiesGet (q : PropQuery) (s : Store) : PropResp :=
  if jsTruthy q.id then
    let pid := q.id.getD ""
    match singleQ (s.properties.filter (fun r => r.id = pid)) with
    | (_, some e) => .err 500 e
    | (some r, none) => .ok 200 (.one r)
    | (none, none) => .ok 200 .nullData
  else if jsTruthy q.ownerId then
    let oid := q.ownerId.getD ""
    .ok 200 (.many (sortPropDesc (s.properties.filter (fun r => r.owner = oid))))
  else
    .ok 200 (.many ((sortPropDesc s.properties).take 20))

/-- The row the POST branch inserts (lines 104-114): the supplied fields with
`owner` forced to the authenticated user; id and timestamp are generated by
the store and passed in here. -/
def newProperty (uid : String) (body : PropBody) (newId : String) (now : Nat) : PropertyRow :=
  { id := newId
    owner := uid
    title := body.title.getD ""
    city := body.city.getD ""
    price := body.price.getD 0
    image_url := jsOrNull body.image_url
    created_at := now }

/-- POST branch of `src/pages/api/properties.ts` (lines 89-127): 401 when the
actor is unresolved, 400 when `!title || !city || price === undefined`,
otherwise insert with `owner: userId` and answer 201 with the inserted rows. -/
def propertiesPost (userId : Option String) (body : PropBody) (s : Store)
    (newId : String) (now : Nat) : PropResp × Store :=
  match userId with
  | none => (.err 401 "Unauthorized", s)
  | some uid =>
    if ¬ jsTruthy body.title ∨ ¬ jsTruthy body.city ∨ body.price = none then
      (.err 400 "Missing required fields", s)
    else
      let row := newProperty uid body newId now
      (.ok 201 (.many [row]), { s with properties := s.properties ++ [row] })

/-- The PUT update payload applied to a row (lines 161-171): the update object
carries `title, city, price, image_url` and never `owner`; a field the caller
left `undefined` is dropped from the serialized payload, so the stored value
is kept. -/
def applyUpdate (body : PropBody) (r : PropertyRow) : PropertyRow :=
  { r with
    title := body.title.getD r.title
    city := body.city.getD r.city
    price := body.price.getD r.price
    image_url := match body.image_url with
      | some v => some v
      | none => r.image_url }

/-- PUT branch of `src/pages/api/properties.ts` (lines 129-183): 400 on a
missing id, 401 on an unresolved actor, then a `.single()` fetch of the row
owner (a zero-row result is a thrown store error, answered 500), 403 unless
the actor equals the stored owner, otherwise apply the update payload and
answer 200 with the updated rows. -/
def propertiesPut (userId : Option String) (qid : Option String) (body : PropBody)
    (s : Store) : PropResp × Store :=
  if ¬ jsTruthy qid then (.err 400 "Missing property ID", s)
  else
    match userId with
    | none => (.err 401 "Unauthorized", s)
    | some uid =>
      let pid := qid.getD ""
      match singleQ (s.properties.filter (fun r => r.id = pid)) with
      | (_, some e) => (.err 500 e, s)
      | (none, none) => (.err 403 "Forbidden - You do not own this property", s)
      | (some prop, none) =>
        if prop.owner ≠ uid then
          (.err 403 "Forbidden - You do not own this property", s)
        else
          let updated := s.properties.map (fun r => if r.id = pid then applyUpdate body r else r)
          (.ok 200 (.many (updated.filter (fun r => r.id = pid))),
            { s with properties := updated })

/-- DELETE branch of `src/pages/api/properties.ts` (lines 185-230): the same
checks as PUT, then the rows with the given id are removed and the handler
answers 200 `{success:true}`. -/
def propertiesDelete (userId : Option String) (qid : Option String)
    (s : Store) : PropResp × Store :=
  if ¬ jsTruthy qid then (.err 400 "Missing property ID", s)
  else
    match userId with
    | none => (.err 401 "Unauthorized", s)
    | some uid =>
      let pid := qid.getD ""
      match singleQ (s.properties.filter (fun r => r.id = pid)) with
      | (_, some e) => (.err 500 e, s)
      | (none, none) => (.err 403 "Forbidden - You do not own this property", s)
      | (some prop, none) =>
        if prop.owner ≠ uid then
          (.err 403 "Forbidden - You do not own this property", s)
        else
          (.ok 200 .success,
            { s with properties := s.properties.filter (fun r => ¬ r.id = pid) })

/-- Bearer-token resolution shared by both handlers (properties lines 20-32,
inquiries lines 17-30): a missing header or one without the `Bearer ` scheme
leaves the actor unresolved; a token is passed to the identity provider
(`resolve`, modelling `supabase.auth.getUser`), and a resolution failure is
caught, logged and swallowed, leaving the actor unresolved. -/
def resolveActor (authHeader : Option String) (resolve : String → Except String String) :
    Option String :=
  match authHeader with
  | none => none
  | some h =>
    if h.startsWith "Bearer " then
      match resolve (h.drop 7) with
      | .ok uid => some uid
      | .error _ => none
    else none

/-- HTTP method of a request to either handler. -/
inductive Method where
  | GET
  | POST
  | PUT
  | DELETE
  | OTHER (name : String)
deriving DecidableEq, Repr

/-- The whole `/api/properties` handler: resolve the actor from the
authorization header, then dispatch on the method as the source switch does,
falling through to 405 for unsupported methods. -/
def propertiesHandler (m : Method) (authHeader : Option String)
    (resolve : String → Except String String) (q : PropQuery) (body : PropBody)
    (s : Store) (newId : String) (now : Nat) : PropResp × Store :=
  let userId := resolveActor authHeader resolve
  match m with
  | .GET => (propertiesGet q s, s)
  | .POST => propertiesPost userId body s newId now
  | .PUT => propertiesPut userId q.id body s
  | .DELETE => propertiesDelete userId q.id s
  | .OTHER name => (.err 405 ("Method " ++ name ++ " Not Allowed"), s)

/-- The query string of `/api/inquiries`: optional `propertyId` and `userId`
(GET) and `id` (DELETE). -/
structure InqQuery where
  propertyId : Option String
  userId : Option String
  id : Option String
deriving DecidableEq, Repr

/-- The JSON body sent to `POST /api/inquiries`: `{property, message}`. -/
structure InqBody where
  property : Option String
  message : Option String
deriving DecidableEq, Repr

/-- Payload of a successful `/api/inquiries` response. -/
inductive InqPayload where
  | many (rs : List InquiryRow)
  | success
deriving DecidableEq, Repr

/-- An HTTP response of the inquiries handler. -/
inductive InqResp where
  | ok (status : Nat) (payload : InqPayload)
  | err (status : Nat) (msg : String)
deriving DecidableEq, Repr

/-- Status code of an inquiries response. -/
def InqResp.status : InqResp → Nat
  | .ok s _ => s
  | .err s _ => s

/-- The disjunctive filter built on inquiries lines 90-92:
`.or(sender.eq.<uid>,property.in.(<ownedIds.join(const comma)>))`. PostgREST
evaluates `sender.eq.uid` as equality of the sender column and
`property.in.(a,b,...)` as membership of the property column in the listed
ids; with the empty id list the rendered `property.in.()` matches no rows. -/
def orFilterMatches (uid : String) (ownedIds : List String) (i : InquiryRow) : Bool :=
  i.sender = uid || ownedIds.contains i.property

/-- GET branch of `src/pages/api/inquiries.ts` (lines 33-110): 401 when the
actor is unresolved; with `propertyId` a `.single()` owner fetch guards a
403 unless the actor owns the property, then the inquiries of that property;
with `userId` a 403 unless it equals the actor, then the inquiries the actor
sent; with no filter the disjunctive sender-or-owned-property filter. Every
branch is ordered by creation time descending before execution. The joined
`property` and `sender` sub-objects of the select are response shaping only
and are not modelled; the rows returned and their order are. -/
def inquiriesGet (userId : Option String) (q : InqQuery) (s : Store) : InqResp :=
  match userId with
  | none => .err 401 "Unauthorized"
  | some uid =>
    if jsTruthy q.propertyId then
      let pid := q.propertyId.getD ""
      match singleQ (s.properties.filter (fun r => r.id = pid)) with
      | (_, some e) => .err 500 e
      | (none, none) => .err 403 "Forbidden - You do not own this property"
      | (some prop, none) =>
        if prop.owner ≠ uid then .err 403 "Forbidden - You do not own this property"
        else .ok 200 (.many (sortInqDesc (s.inquiries.filter (fun i => i.property = pid))))
    else if jsTruthy q.userId then
      let quid := q.userId.getD ""
      if quid ≠ uid then .err 403 "Forbidden - You can only view your own inquiries"
      else .ok 200 (.many (sortInqDesc (s.inquiries.filter (fun i => i.sender = quid))))
    else
      let ownedIds := (s.properties.filter (fun p => p.owner = uid)).map (fun p => p.id)
      .ok 200 (.many (sortInqDesc (s.inquiries.filter (orFilterMatches uid ownedIds))))

/-- POST branch of `src/pages/api/inquiries.ts` (lines 112-168): 401 when the
actor is unresolved; 400 when `!property || !message`; a `.single()` fetch of
the property (a zero-row result is a thrown store error, answered 500); a
404 when the fetched data is null; a 400 self-inquiry rejection when the
actor owns the property; otherwise insert with `sender: userId` and answer
201 with the inserted rows. -/
def inquiriesPost (userId : Option String) (body : InqBody) (s : Store)
    (newId : String) (now : Nat) : InqResp × Store :=
  match userId with
  | none => (.err 401 "Unauthorized", s)
  | some uid =>
    if ¬ jsTruthy body.property ∨ ¬ jsTruthy body.message then
      (.err 400 "Missing required fields", s)
    else
      let pid := body.property.getD ""
      match singleQ (s.properties.filter (fun r => r.id = pid)) with
      | (_, some e) => (.err 500 e, s)
      | (none, none) => (.err 404 "Property not found", s)
      | (some prop, none) =>
        if prop.owner = uid then
          (.err 400 "You cannot send an inquiry to your own property", s)
        else
          let row : InquiryRow :=
            { id := newId, property := pid, sender := uid,
              message := body.message.getD "", created_at := now }
          (.ok 201 (.many [row]), { s with inquiries := s.inquiries ++ [row] })

/-- The owner of the property joined to an inquiry row in the DELETE branch
(lines 200-213): in this model the join resolves through the store. -/
def joinedOwner (s : Store) (i : InquiryRow) : Option String :=
  match s.properties.filter (fun r => r.id = i.property) with
  | p :: _ => some p.owner
  | [] => none

/-- DELETE branch of `src/pages/api/inquiries.ts` (lines 170-237): 400 on a
missing id, 401 on an unresolved actor, a `.single()` fetch of the inquiry
with its joined property owner (a zero-row result is a thrown store error,
answered 500), 403 unless the actor is the sender or the property owner,
otherwise the row is removed and the handler answers 200 `{success:true}`. -/
def inquiriesDelete (userId : Option String) (qid : Option String)
    (s : Store) : InqResp × Store :=
  if ¬ jsTruthy qid then (.err 400 "Missing inquiry ID", s)
  else
    match userId with
    | none => (.err 401 "Unauthorized", s)
    | some uid =>
      let iid := qid.getD ""
      match singleQ (s.inquiries.filter (fun i => i.id = iid)) with
      | (_, some e) => (.err 500 e, s)
      | (none, none) => (.err 403 "Forbidden - You are not authorized to delete this inquiry", s)
      | (some inq, none) =>
        let propertyOwnerId := joinedOwner s inq
        let isAuthorized := inq.sender = uid || propertyOwnerId = some uid
        if ¬ isAuthorized then
          (.err 403 "Forbidden - You are not authorized to delete this inquiry", s)
        else
          (.ok 200 .success, { s with inquiries := s.inquiries.filter (fun i => ¬ i.id = iid) })

/-- The whole `/api/inquiries` handler: resolve the actor from the
authorization header, then dispatch on the method, falling through to 405. -/
def inquiriesHandler (m : Method) (authHeader : Option String)
    (resolve : String → Except String String) (q : InqQuery) (body : InqBody)
    (s : Store) (newId : String) (now : Nat) : InqResp × Store :=
  let userId := resolveActor authHeader resolve
  match m with
  | .GET => (inquiriesGet userId q s, s)
  | .POST => inquiriesPost userId body s newId now
  | .DELETE => inquiriesDelete userId q.id s
  | .PUT => (.err 405 "Method PUT Not Allowed", s)
  | .OTHER name => (.err 405 ("Method " ++ name ++ " Not Allowed"), s)

/-- A store satisfies `keyedProp s P` when the primary-key lookup of `P.id`
in the properties table yields exactly the row `P`; this is the uniqueness
the store guarantees for its generated ids. -/
def keyedProp (s : Store) (P : PropertyRow) : Prop :=
  s.properties.filter (fun r => r.id = P.id) = [P]

theorem keyedProp_mem {s : Store} {P : PropertyRow} (h : keyedProp s P) :
    ∀ r ∈ s.properties, r.id = P.id → r = P := by
  intro r hr hrid
  have hmem : r ∈ s.properties.filter (fun x => x.id = P.id) := by
    simp [List.mem_filter, hr, hrid]
  rw [keyedProp] at h
  rw [h] at hmem
  simpa using hmem

example :
    propertiesGet ⟨none, none⟩ ⟨[⟨"p1", "u1", "t", "c", 5, none, 1⟩], []⟩
      = .ok 200 (.many [⟨"p1", "u1", "t", "c", 5, none, 1⟩]) := by decide

example :
    (propertiesPost (some "u1") ⟨some "Villa", some "Yerevan", some 100000, none, none⟩
      ⟨[], []⟩ "p1" 3).fst = .ok 201 (.many [⟨"p1", "u1", "Villa", "Yerevan", 100000, none, 3⟩]) := by
  decide

example :
    (propertiesPut (some "u2") (some "p1") ⟨none, none, some 7, none, none⟩
      ⟨[⟨"p1", "u1", "t", "c", 5, none, 1⟩], []⟩).fst
      = .err 403 "Forbidden - You do not own this property" := by decide

/-- C1: for every property row P reachable by its key and every resolved
actor A, the PUT and DELETE branches answer 403 Forbidden (leaving the store
unchanged) exactly when A is not the stored owner, and answer 200 when A is
the owner. -/
theorem property_write_owner_only (s : Store) (P : PropertyRow) (A : String)
    (body : PropBody) (hrow : keyedProp s P) (hid : P.id ≠ "") :
    (propertiesPut (some A) (some P.id) body s).fst.status
        = (if A = P.owner then 200 else 403)
    ∧ (propertiesDelete (some A) (some P.id) s).fst.status
        = (if A = P.owner then 200 else 403)
    ∧ (A ≠ P.owner →
        propertiesPut (some A) (some P.id) body s
          = (.err 403 "Forbidden - You do not own this property", s)
        ∧ propertiesDelete (some A) (some P.id) s
          = (.err 403 "Forbidden - You do not own this property", s)) := by
  have hq : jsTruthy (some P.id) = true := by simp [jsTruthy, hid]
  rw [keyedProp] at hrow
  by_cases hA : A = P.owner
  · subst hA
    simp [propertiesPut, propertiesDelete, hq, hrow, singleQ, PropResp.status]
  · have hA2 : ¬ P.owner = A := fun h => hA h.symm
    simp [propertiesPut, propertiesDelete, hq, hrow, singleQ, PropResp.status, hA, hA2]

theorem property_write_owner_only_witness :
    (keyedProp ⟨[⟨"p1", "u1", "t", "c", 5, none, 1⟩], []⟩ ⟨"p1", "u1", "t", "c", 5, none, 1⟩
      ∧ ("p1" : String) ≠ "")
    ∧ (propertiesPut (some "u2") (some "p1") ⟨none, none, none, none, none⟩
        ⟨[⟨"p1", "u1", "t", "c", 5, none, 1⟩], []⟩
        = (.err 403 "Forbidden - You do not own this property",
           ⟨[⟨"p1", "u1", "t", "c", 5, none, 1⟩], []⟩))
    ∧ (propertiesDelete (some "u1") (some "p1")
        ⟨[⟨"p1", "u1", "t", "c", 5, none, 1⟩], []⟩).fst.status = 200 := by
  have h2 := property_write_owner_only ⟨[⟨"p1", "u1", "t", "c", 5, none, 1⟩], []⟩
    ⟨"p1", "u1", "t", "c", 5, none, 1⟩ "u2" ⟨none, none, none, none, none⟩
    (by rw [keyedProp]; decide) (by decide)
  have h1 := property_write_owner_only ⟨[⟨"p1", "u1", "t", "c", 5, none, 1⟩], []⟩
    ⟨"p1", "u1", "t", "c", 5, none, 1⟩ "u1" ⟨none, none, none, none, none⟩
    (by rw [keyedProp]; decide) (by decide)
  refine ⟨⟨by rw [keyedProp]; decide, by decide⟩, (h2.2.2 (by decide)).1, ?_⟩
  have := h1.2.1
  simpa using this

/-- C2: an update issued by the owner succeeds, rewrites the table by
applying only the supplied title/city/price/image fields to the addressed
row, and leaves the owner (as well as id and creation time) of every row
unchanged — in particular the owner of the updated row stays P.owner no
matter what owner value the body carries. -/
theorem update_owner_immutable (s : Store) (P : PropertyRow) (body : PropBody)
    (hrow : keyedProp s P) (hid : P.id ≠ "") :
    (propertiesPut (some P.owner) (some P.id) body s).fst.status = 200
    ∧ (propertiesPut (some P.owner) (some P.id) body s).snd.properties
        = s.properties.map (fun r => if r.id = P.id then applyUpdate body r else r)
    ∧ (∀ r, (applyUpdate body r).owner = r.owner ∧ (applyUpdate body r).id = r.id
        ∧ (applyUpdate body r).created_at = r.created_at)
    ∧ ∀ r ∈ (propertiesPut (some P.owner) (some P.id) body s).snd.properties,
        r.id = P.id → r.owner = P.owner := by
  have hq : jsTruthy (some P.id) = true := by simp [jsTruthy, hid]
  have hkey := keyedProp_mem hrow
  rw [keyedProp] at hrow
  refine ⟨?_, ?_, fun r => ⟨rfl, rfl, rfl⟩, ?_⟩
  · simp [propertiesPut, hq, hrow, singleQ, PropResp.status]
  · simp [propertiesPut, hq, hrow, singleQ]
  · intro r hr hrid
    simp [propertiesPut, hq, hrow, singleQ] at hr
    obtain ⟨r0, hr0, hr0eq⟩ := hr
    by_cases h0 : r0.id = P.id
    · have hr0P : r0 = P := hkey r0 hr0 h0
      subst hr0P
      rw [if_pos h0] at hr0eq
      rw [← hr0eq]
      rfl
    · rw [if_neg h0] at hr0eq
      subst hr0eq
      exact absurd hrid h0

theorem update_owner_immutable_witness :
    (keyedProp ⟨[⟨"p1", "u1", "t", "c", 5, none, 1⟩], []⟩ ⟨"p1", "u1", "t", "c", 5, none, 1⟩
      ∧ ("p1" : String) ≠ "")
    ∧ (propertiesPut (some "u1") (some "p1")
        ⟨some "t2", none, none, none, some "evil"⟩
        ⟨[⟨"p1", "u1", "t", "c", 5, none, 1⟩], []⟩).snd.properties
        = [⟨"p1", "u1", "t2", "c", 5, none, 1⟩] := by
  have h := update_owner_immutable ⟨[⟨"p1", "u1", "t", "c", 5, none, 1⟩], []⟩
    ⟨"p1", "u1", "t", "c", 5, none, 1⟩ ⟨some "t2", none, none, none, some "evil"⟩
    (by rw [keyedProp]; decide) (by decide)
  refine ⟨⟨by rw [keyedProp]; decide, by decide⟩, ?_⟩
  rw [h.2.1]
  decide

/-- After the POST branch of the inquiries handler has passed the thrown
`.single()` error test, the fetched data can not be null: the 404 branch of
the source (its `!propertyData` test) is unreachable. -/
theorem singleQ_no_error_has_data {α : Type} (l : List α) :
    (singleQ l).snd = none → (singleQ l).fst ≠ none := by
  match l with
  | [x] => intro _ h; exact Option.noConfusion h
  | [] => intro h; exact absurd h (by simp [singleQ, singleErrMsg])
  | x :: y :: t => intro h; exact absurd h (by simp [singleQ, singleErrMsg])

/-- C3: a create call by the owner of the addressed property is rejected with
the 400 self-inquiry condition and the store is returned unchanged — the
insert is never reached. -/
theorem self_inquiry_rejected (s : Store) (P : PropertyRow) (msg newId : String)
    (now : Nat) (hrow : keyedProp s P) (hid : P.id ≠ "") (hmsg : msg ≠ "") :
    inquiriesPost (some P.owner) ⟨some P.id, some msg⟩ s newId now
      = (.err 400 "You cannot send an inquiry to your own property", s) := by
  have hq : jsTruthy (some P.id) = true := by simp [jsTruthy, hid]
  have hm : jsTruthy (some msg) = true := by simp [jsTruthy, hmsg]
  rw [keyedProp] at hrow
  simp [inquiriesPost, hq, hm, hrow, singleQ]

theorem self_inquiry_rejected_witness :
    (keyedProp ⟨[⟨"p1", "u1", "t", "c", 5, none, 1⟩], []⟩ ⟨"p1", "u1", "t", "c", 5, none, 1⟩
      ∧ ("p1" : String) ≠ "" ∧ ("interested" : String) ≠ "")
    ∧ inquiriesPost (some "u1") ⟨some "p1", some "interested"⟩
        ⟨[⟨"p1", "u1", "t", "c", 5, none, 1⟩], []⟩ "i1" 9
      = (.err 400 "You cannot send an inquiry to your own property",
         ⟨[⟨"p1", "u1", "t", "c", 5, none, 1⟩], []⟩) := by
  refine ⟨⟨by rw [keyedProp]; decide, by decide, by decide⟩, ?_⟩
  exact self_inquiry_rejected ⟨[⟨"p1", "u1", "t", "c", 5, none, 1⟩], []⟩
    ⟨"p1", "u1", "t", "c", 5, none, 1⟩ "interested" "i1" 9
    (by rw [keyedProp]; decide) (by decide) (by decide)

/-- C6: at a concrete request whose property id matches no stored row, the
inquiries POST branch answers 500 with the store error of the `.single()`
fetch, not the 404 the spec (and the unreachable `!propertyData` branch of
the source itself) prescribe. -/
theorem inquiry_absent_property_answers_500 :
    inquiriesPost (some "u2") ⟨some "p-missing", some "hi"⟩ ⟨[], []⟩ "i1" 5
      = (.err 500 singleErrMsg, ⟨[], []⟩)
    ∧ (inquiriesPost (some "u2") ⟨some "p-missing", some "hi"⟩ ⟨[], []⟩ "i1" 5).fst.status
        = 500 := by
  constructor <;> rfl

/-- C4: the unfiltered GET branch answers 200 with exactly the inquiries
whose sender is the actor or whose property is one of the ids the actor owns
(a permutation of that filtered set), ordered by creation time descending;
when the actor owns no properties the rendered membership clause matches no
rows, so exactly the inquiries the actor sent are returned. -/
theorem listForActor_union (uid : String) (s : Store) :
    (inquiriesGet (some uid) ⟨none, none, none⟩ s
      = .ok 200 (.many (sortInqDesc (s.inquiries.filter
          (orFilterMatches uid ((s.properties.filter (fun p => p.owner = uid)).map (fun p => p.id)))))))
    ∧ (sortInqDesc (s.inquiries.filter
          (orFilterMatches uid ((s.properties.filter (fun p => p.owner = uid)).map (fun p => p.id))))).Perm
        (s.inquiries.filter (fun i => i.sender = uid
          || ((s.properties.filter (fun p => p.owner = uid)).map (fun p => p.id)).contains i.property))
    ∧ (sortInqDesc (s.inquiries.filter
          (orFilterMatches uid ((s.properties.filter (fun p => p.owner = uid)).map (fun p => p.id))))).Sorted inqGE
    ∧ (s.properties.filter (fun p => p.owner = uid) = [] →
        inquiriesGet (some uid) ⟨none, none, none⟩ s
          = .ok 200 (.many (sortInqDesc (s.inquiries.filter (fun i => i.sender = uid))))) := by
  refine ⟨rfl, ?_, ?_, ?_⟩
  · exact List.perm_insertionSort inqGE _
  · exact List.sorted_insertionSort inqGE _
  · intro hempty
    have hfun : orFilterMatches uid ([] : List String)
        = (fun i => decide (i.sender = uid)) := by
      funext i
      simp [orFilterMatches]
    simp [inquiriesGet, jsTruthy, hempty, hfun]

theorem listForActor_union_witness :
    ((⟨[], [⟨"i1", "p9", "u1", "m", 1⟩, ⟨"i2", "p9", "u3", "m", 2⟩]⟩ : Store).properties.filter
        (fun p => p.owner = "u1") = [])
    ∧ inquiriesGet (some "u1") ⟨none, none, none⟩
        ⟨[], [⟨"i1", "p9", "u1", "m", 1⟩, ⟨"i2", "p9", "u3", "m", 2⟩]⟩
      = .ok 200 (.many [⟨"i1", "p9", "u1", "m", 1⟩]) := by
  have h := listForActor_union "u1" ⟨[], [⟨"i1", "p9", "u1", "m", 1⟩, ⟨"i2", "p9", "u3", "m", 2⟩]⟩
  refine ⟨by decide, ?_⟩
  rw [h.2.2.2 (by decide)]
  decide

/-- C7: with a `propertyId` filter the GET branch answers 401 when the actor
is unresolved, 403 Forbidden when the resolved actor is not the owner of the
referenced (existing) property, and for the owner exactly the inquiries of
that property (a permutation of the filtered set) ordered by creation time
descending. -/
theorem listForProperty_contract (s : Store) (P : PropertyRow) (uid : String)
    (qu qi : Option String) (hrow : keyedProp s P) (hid : P.id ≠ "") :
    (inquiriesGet none ⟨some P.id, qu, qi⟩ s = .err 401 "Unauthorized")
    ∧ (uid ≠ P.owner →
        inquiriesGet (some uid) ⟨some P.id, qu, qi⟩ s
          = .err 403 "Forbidden - You do not own this property")
    ∧ (inquiriesGet (some P.owner) ⟨some P.id, qu, qi⟩ s
        = .ok 200 (.many (sortInqDesc (s.inquiries.filter (fun i => i.property = P.id)))))
    ∧ (sortInqDesc (s.inquiries.filter (fun i => i.property = P.id))).Perm
        (s.inquiries.filter (fun i => i.property = P.id))
    ∧ (sortInqDesc (s.inquiries.filter (fun i => i.property = P.id))).Sorted inqGE := by
  have hq : jsTruthy (some P.id) = true := by simp [jsTruthy, hid]
  rw [keyedProp] at hrow
  refine ⟨rfl, ?_, ?_, List.perm_insertionSort inqGE _, List.sorted_insertionSort inqGE _⟩
  · intro hne
    have hne2 : ¬ P.owner = uid := fun h => hne h.symm
    simp [inquiriesGet, hq, hrow, singleQ, hne2]
  · simp [inquiriesGet, hq, hrow, singleQ]

theorem listForProperty_contract_witness :
    (keyedProp ⟨[⟨"p1", "u1", "t", "c", 5, none, 1⟩], [⟨"i1", "p1", "u2", "m", 4⟩]⟩
        ⟨"p1", "u1", "t", "c", 5, none, 1⟩
      ∧ ("p1" : String) ≠ "" ∧ ("u2" : String) ≠ "u1")
    ∧ inquiriesGet (some "u2") ⟨some "p1", none, none⟩
        ⟨[⟨"p1", "u1", "t", "c", 5, none, 1⟩], [⟨"i1", "p1", "u2", "m", 4⟩]⟩
      = .err 403 "Forbidden - You do not own this property"
    ∧ inquiriesGet (some "u1") ⟨some "p1", none, none⟩
        ⟨[⟨"p1", "u1", "t", "c", 5, none, 1⟩], [⟨"i1", "p1", "u2", "m", 4⟩]⟩
      = .ok 200 (.many [⟨"i1", "p1", "u2", "m", 4⟩]) := by
  have h := listForProperty_contract
    ⟨[⟨"p1", "u1", "t", "c", 5, none, 1⟩], [⟨"i1", "p1", "u2", "m", 4⟩]⟩
    ⟨"p1", "u1", "t", "c", 5, none, 1⟩ "u2" none none
    (by rw [keyedProp]; decide) (by decide)
  refine ⟨⟨by rw [keyedProp]; decide, by decide, by decide⟩, h.2.1 (by decide), ?_⟩
  rw [h.2.2.1]
  decide

/-- C5: the property create branch answers 401 Unauthorized when the actor
is unresolved; answers 400 when title, city or price is absent (or title or
city is the falsy empty string, which the truthiness test also rejects);
and on present fields — price zero or any other value included — inserts a
row whose owner is the resolved actor, whatever owner field the body
carries. -/
theorem create_property_contract (uid : String) (body : PropBody) (s : Store)
    (newId : String) (now : Nat) :
    (propertiesPost none body s newId now = (.err 401 "Unauthorized", s))
    ∧ ((body.title = none ∨ body.title = some "" ∨ body.city = none ∨ body.city = some ""
          ∨ body.price = none) →
        propertiesPost (some uid) body s newId now = (.err 400 "Missing required fields", s))
    ∧ (∀ t c p, body.title = some t → t ≠ "" → body.city = some c → c ≠ "" →
        body.price = some p →
        (propertiesPost (some uid) body s newId now).fst
            = .ok 201 (.many [newProperty uid body newId now])
        ∧ (propertiesPost (some uid) body s newId now).snd.properties
            = s.properties ++ [newProperty uid body newId now]
        ∧ (propertiesPost (some uid) body s newId now).snd.inquiries = s.inquiries
        ∧ (newProperty uid body newId now).owner = uid
        ∧ (newProperty uid body newId now).price = p) := by
  refine ⟨rfl, ?_, ?_⟩
  · intro hmiss
    rcases hmiss with h | h | h | h | h <;> simp [propertiesPost, jsTruthy, h]
  · intro t c p ht ht2 hc hc2 hp
    have hT : jsTruthy body.title = true := by simp [jsTruthy, ht, ht2]
    have hC : jsTruthy body.city = true := by simp [jsTruthy, hc, hc2]
    have hP : ¬ body.price = none := by simp [hp]
    refine ⟨?_, ?_, ?_, rfl, ?_⟩
    · simp [propertiesPost, hT, hC, hP]
    · simp [propertiesPost, hT, hC, hP]
    · simp [propertiesPost, hT, hC, hP]
    · simp [newProperty, hp]

theorem create_property_contract_witness :
    ((⟨some "Villa", some "Yerevan", some 0, none, some "evil"⟩ : PropBody).title = some "Villa"
      ∧ ("Villa" : String) ≠ "" ∧ ("Yerevan" : String) ≠ "")
    ∧ propertiesPost none ⟨some "Villa", some "Yerevan", some 0, none, some "evil"⟩
        ⟨[], []⟩ "p1" 7 = (.err 401 "Unauthorized", ⟨[], []⟩)
    ∧ propertiesPost (some "u1") ⟨none, some "Yerevan", some 0, none, none⟩
        ⟨[], []⟩ "p1" 7 = (.err 400 "Missing required fields", ⟨[], []⟩)
    ∧ (propertiesPost (some "u1") ⟨some "Villa", some "Yerevan", some 0, none, some "evil"⟩
        ⟨[], []⟩ "p1" 7).fst
      = .ok 201 (.many [⟨"p1", "u1", "Villa", "Yerevan", 0, none, 7⟩])
    ∧ (newProperty "u1" ⟨some "Villa", some "Yerevan", some 0, none, some "evil"⟩ "p1" 7).owner
      = "u1" := by
  have h := create_property_contract "u1" ⟨some "Villa", some "Yerevan", some 0, none, some "evil"⟩
    ⟨[], []⟩ "p1" 7
  have hmiss := create_property_contract "u1" ⟨none, some "Yerevan", some 0, none, none⟩
    ⟨[], []⟩ "p1" 7
  have hfull := h.2.2 "Villa" "Yerevan" 0 rfl (by decide) rfl (by decide) rfl
  refine ⟨⟨rfl, by decide, by decide⟩, h.1, hmiss.2.1 (Or.inl rfl), ?_, hfull.2.2.2.1⟩
  rw [hfull.1]
  decide

/-- C8: the unfiltered list branch answers 200 with the stored rows sorted by
creation time descending and truncated to at most 20 rows; the cap is
unconditional. -/
theorem list_unfiltered_cap (s : Store) :
    propertiesGet ⟨none, none⟩ s = .ok 200 (.many ((sortPropDesc s.properties).take 20))
    ∧ ((sortPropDesc s.properties).take 20).length ≤ 20
    ∧ ((sortPropDesc s.properties).take 20).Sorted propGE := by
  refine ⟨rfl, ?_, ?_⟩
  · exact List.length_take_le 20 _
  · exact List.Pairwise.sublist (List.take_sublist 20 _)
      (List.sorted_insertionSort propGE s.properties)

/-- C9 counterexample: the create branch accepts the negative price -5 and
persists a property row whose price is -5, so the non-negativity constraint
of the data model is not maintained by the write operations. -/
theorem negative_price_created :
    (propertiesPost (some "u1") ⟨some "Villa", some "Yerevan", some (-5), none, none⟩
        ⟨[], []⟩ "p1" 0).fst
      = .ok 201 (.many [⟨"p1", "u1", "Villa", "Yerevan", -5, none, 0⟩])
    ∧ (propertiesPost (some "u1") ⟨some "Villa", some "Yerevan", some (-5), none, none⟩
        ⟨[], []⟩ "p1" 0).snd.properties
      = [⟨"p1", "u1", "Villa", "Yerevan", -5, none, 0⟩]
    ∧ (-5 : Int) < 0 := by
  refine ⟨rfl, rfl, by decide⟩

/-- C9 amended: price presence (zero included) is the only price validation;
the create branch stores whatever integer price the body supplies, and the
update payload likewise applies any supplied price to the row — negative
values included, so non-negativity is not enforced by create or update. -/
theorem price_not_validated (uid t c : String) (p : Int) (body : PropBody)
    (r : PropertyRow) (s : Store) (newId : String) (now : Nat)
    (ht : body.title = some t) (ht2 : t ≠ "") (hc : body.city = some c) (hc2 : c ≠ "")
    (hp : body.price = some p) :
    ((propertiesPost (some uid) body s newId now).fst
        = .ok 201 (.many [newProperty uid body newId now])
      ∧ (newProperty uid body newId now).price = p)
    ∧ (applyUpdate body r).price = p := by
  have hT : jsTruthy body.title = true := by simp [jsTruthy, ht, ht2]
  have hC : jsTruthy body.city = true := by simp [jsTruthy, hc, hc2]
  have hP : ¬ body.price = none := by simp [hp]
  refine ⟨⟨by simp [propertiesPost, hT, hC, hP], by simp [newProperty, hp]⟩, ?_⟩
  simp [applyUpdate, hp]

theorem price_not_validated_witness :
    ((⟨some "Villa", some "Yerevan", some (-5), none, none⟩ : PropBody).title = some "Villa"
      ∧ ("Villa" : String) ≠ "" ∧ ("Yerevan" : String) ≠ "")
    ∧ (propertiesPost (some "u1") ⟨some "Villa", some "Yerevan", some (-5), none, none⟩
        ⟨[], []⟩ "p1" 0).fst
      = .ok 201 (.many [⟨"p1", "u1", "Villa", "Yerevan", -5, none, 0⟩])
    ∧ (applyUpdate ⟨some "Villa", some "Yerevan", some (-5), none, none⟩
        ⟨"p1", "u1", "t", "c", 5, none, 1⟩).price = -5 := by
  have h := price_not_validated "u1" "Villa" "Yerevan" (-5)
    ⟨some "Villa", some "Yerevan", some (-5), none, none⟩
    ⟨"p1", "u1", "t", "c", 5, none, 1⟩ ⟨[], []⟩ "p1" 0
    rfl (by decide) rfl (by decide) rfl
  refine ⟨⟨rfl, by decide, by decide⟩, ?_, h.2⟩
  rw [h.1.1]
  decide

/-- C10: the GET response of the properties handler is identical whatever the
authorization header holds — in particular an invalid bearer token and a
missing header produce the same response for the same query — and a token
whose resolution fails is swallowed into an unresolved actor rather than an
error response. -/
theorem get_token_blind (resolve : String → Except String String)
    (hdr : Option String) (q : PropQuery) (body : PropBody) (s : Store)
    (newId : String) (now : Nat) :
    propertiesHandler .GET hdr resolve q body s newId now
      = propertiesHandler .GET none resolve q body s newId now
    ∧ ∀ h e, resolve (h.drop 7) = .error e → resolveActor (some h) resolve = none := by
  refine ⟨rfl, ?_⟩
  intro h e he
  by_cases hsw : h.startsWith "Bearer " = true
  · simp [resolveActor, hsw, he]
  · simp [resolveActor, hsw]

theorem get_token_blind_witness :
    propertiesHandler .GET (some "Bearer bad") (fun _ => .error "invalid token")
        ⟨none, none⟩ ⟨none, none, none, none, none⟩
        ⟨[⟨"p1", "u1", "t", "c", 5, none, 1⟩], []⟩ "x" 0
      = propertiesHandler .GET none (fun _ => .error "invalid token")
        ⟨none, none⟩ ⟨none, none, none, none, none⟩
        ⟨[⟨"p1", "u1", "t", "c", 5, none, 1⟩], []⟩ "x" 0
    ∧ resolveActor (some "Bearer bad") (fun _ => .error "invalid token") = none := by
  have h := get_token_blind (fun _ => .error "invalid token") (some "Bearer bad")
    ⟨none, none⟩ ⟨none, none, none, none, none⟩
    ⟨[⟨"p1", "u1", "t", "c", 5, none, 1⟩], []⟩ "x" 0
  exact ⟨h.1, h.2 "Bearer bad" "invalid token" rfl⟩
